import Mathlib

/-!
Shallow embedding of `route_optimizer/views.py` (fuelOptimizerDjango).

Numbers that the Python code holds as floats (prices, distances,
coordinates) are modelled as rationals; pandas DataFrames become lists of
records; the Google-Maps client is an explicit collaborator record whose
methods are pure functions, and the list of external calls issued by a
request is computed alongside the response.
-/

namespace FuelOptimizer

/-- `VEHICLE_RANGE = 500  # in miles` -/
def VEHICLE_RANGE : ℚ := 500

/-- `VEHICLE_MPG = 10  # miles per gallon` -/
def VEHICLE_MPG : ℚ := 10

/-- One row of the fuel-price CSV loaded into `FUEL_DATA`
(columns used by the code: OPIS Truckstop ID, Truckstop Name, State,
Retail Price). -/
structure FuelRow where
  opisId : Int
  truckstopName : String
  address : String
  city : String
  state : String
  retailPrice : ℚ
deriving Repr, DecidableEq

/-- The projection `sorted_data[['OPIS Truckstop ID', 'Truckstop Name',
'Retail Price']]` applied to one row. -/
structure ResultRow where
  opisId : Int
  truckstopName : String
  retailPrice : ℚ
deriving Repr, DecidableEq

/-- A `(lat, lng)` pair, as in the Google-Maps JSON objects. -/
structure LatLng where
  lat : ℚ
  lng : ℚ
deriving Repr, DecidableEq

/-- One entry of `fuel_stations_within_500_miles`: the dictionary built in
the proximity loop of `optimize_route` (`state` stays `None` when reverse
geocoding yields no `administrative_area_level_1` component). -/
structure EligibleStop where
  lat : ℚ
  lng : ℚ
  formatted_address : String
  state : Option String
  distance : ℚ
deriving Repr, DecidableEq

/-- One step of `directions_result[0]['legs'][0]['steps']`; the code only
reads `step['end_location']`. -/
structure Step where
  end_location : LatLng
deriving Repr, DecidableEq

/-- One leg of a directions result; the code reads `legs[0]['steps']` and
`legs[0]['start_location']`. -/
structure Leg where
  steps : List Step
  start_location : LatLng
deriving Repr, DecidableEq

/-- One element of `directions_result`. -/
structure Direction where
  legs : List Leg
deriving Repr, DecidableEq

/-- One element of `places_result['results']`; the code reads
`place['geometry']['location']` and `place['vicinity']`. -/
structure Place where
  location : LatLng
  vicinity : String
deriving Repr, DecidableEq

/-- One element of `reverse_geocode_result[0]['address_components']`. -/
structure AddressComponent where
  types : List String
  short_name : Option String
deriving Repr, DecidableEq

/-- The Google-Maps collaborator (`gmaps`): its three methods used by the
view, as pure functions of the arguments the code passes. -/
structure GmapsClient where
  directions : String → String → List Direction
  places_nearby : LatLng → List Place
  reverse_geocode : LatLng → List (List AddressComponent)

/-- External calls issued while handling a request. -/
inductive ExtCall where
  | directions (origin destination : String)
  | places (location : LatLng)
  | revGeocode (location : LatLng)
deriving Repr, DecidableEq

/-- The request body; `data.get('start')` / `data.get('finish')` give
`None` when a field is absent. -/
structure Request where
  start : Option String
  finish : Option String
deriving Repr, DecidableEq

/-- The two shapes of `JsonResponse` the view produces: the 400 error
payload `{"error": ...}` and the 200 success payload. -/
inductive Response where
  | success (route_map : String) (optimal_stations : List ResultRow)
      (direction : List Direction)
  | clientError (error : String)
deriving Repr, DecidableEq

/-- HTTP status of a `Response` (`JsonResponse(..., status=400)` on the
error branches, default 200 otherwise). -/
def Response.status : Response → Nat
  | .success _ _ _ => 200
  | .clientError _ => 400

/-- Python truthiness test `not x` for a `data.get(...)` result: true on
`None` and on the empty string. -/
def pyFalsy : Option String → Bool
  | none => true
  | some s => s.isEmpty

/-- The comparison underlying `sort_values(by='Retail Price')`. -/
def priceLe (a b : FuelRow) : Prop := a.retailPrice ≤ b.retailPrice

instance : DecidableRel priceLe := fun a b =>
  inferInstanceAs (Decidable (a.retailPrice ≤ b.retailPrice))

instance : IsTotal FuelRow priceLe := ⟨fun a b => le_total a.retailPrice b.retailPrice⟩

instance : IsTrans FuelRow priceLe := ⟨fun _ _ _ h₁ h₂ => le_trans h₁ h₂⟩

/-- Projection to the three returned columns. -/
def projRow (r : FuelRow) : ResultRow :=
  { opisId := r.opisId, truckstopName := r.truckstopName, retailPrice := r.retailPrice }

/-- `get_fuel_stations_by_state`: take the distinct states of
`fuel_stations_within_500_miles`, keep the rows of `FUEL_DATA` whose
`State` is among them, sort ascending by `Retail Price`, project the three
columns and return the first 5 rows.  `FUEL_DATA` is passed explicitly. -/
def get_fuel_stations_by_state (FUEL_DATA : List FuelRow)
    (fuel_stations_within_500_miles : List EligibleStop) : List ResultRow :=
  let unique_states := fuel_stations_within_500_miles.map (·.state)
  let filtered_data := FUEL_DATA.filter (fun r => decide (some r.state ∈ unique_states))
  let sorted_data := filtered_data.insertionSort priceLe
  ((sorted_data.map projRow).take 5)

/-- The distinct-states set `{station['state'] for station in ...}`,
as the list of state values (membership is what `isin` consults). -/
def statesOf (stops : List EligibleStop) : List (Option String) :=
  stops.map (·.state)

/-- `FUEL_DATA[FUEL_DATA['State'].isin(unique_states)]`. -/
def filteredByStates (FUEL_DATA : List FuelRow) (stops : List EligibleStop) :
    List FuelRow :=
  FUEL_DATA.filter (fun r => decide (some r.state ∈ statesOf stops))

/-- `calculate_fuel_cost(distance, fuel_price)`. -/
def calculate_fuel_cost (distance fuel_price : ℚ) : ℚ :=
  let gallons_needed := distance / VEHICLE_MPG
  gallons_needed * fuel_price

/-- Python's `round` to an integer: round half to even (banker's
rounding). -/
def pyRoundInt (q : ℚ) : Int :=
  let f := ⌊q⌋
  let frac := q - f
  if frac < 1 / 2 then f
  else if 1 / 2 < frac then f + 1
  else if f % 2 = 0 then f else f + 1

/-- `round(x, 2)`: round to 2 decimal places, half to even. -/
def round2 (q : ℚ) : ℚ := (pyRoundInt (100 * q) : ℚ) / 100

/-- A pandas column lookup failure: `KeyError` on an absent column. -/
inductive PdError where
  | keyError (key : String)
deriving Repr, DecidableEq

/-- A row of the DataFrame handed to `calculate_total_cost`.  Besides the
three columns the selection result always carries, the lookup reads
`row['state']`, `row['lat']` and `row['lng']`; the outer `Option` models
column presence — `none` is an absent column, whose read raises
`KeyError`.  (The output of `get_fuel_stations_by_state` carries only the
first three columns, so there these are all `none`.) -/
structure StationRow where
  opisId : Int
  truckstopName : String
  retailPrice : ℚ
  state : Option (Option String)
  lat : Option ℚ
  lng : Option ℚ
deriving Repr, DecidableEq

/-- A selection-result row as the (disabled) call site in `optimize_route`
would hand it to `calculate_total_cost`: only the three projected columns
are present. -/
def toStationRow (r : ResultRow) : StationRow :=
  { opisId := r.opisId, truckstopName := r.truckstopName,
    retailPrice := r.retailPrice, state := none, lat := none, lng := none }

/-- One entry of the list returned by `calculate_total_cost`. -/
structure CostEntry where
  opisId : Int
  truckstopName : String
  total_cost : ℚ
deriving Repr, DecidableEq

/-- The boolean-mask lookup in `calculate_total_cost`: the first row of
`station_distances` equal to the row on state, lat and lng
(`matching_station.iloc[0]`).  `pd.DataFrame(stops)` has no columns at all
when `stops` is the empty list, so `station_distances['state']` raises
`KeyError` then; and each of `row['state']`, `row['lat']`, `row['lng']`
raises when the row lacks that column — in the evaluation order of the
mask expression. -/
def findMatch (station_distances : List EligibleStop) (row : StationRow) :
    Except PdError (Option EligibleStop) :=
  if station_distances.isEmpty then .error (.keyError "state")
  else
    match row.state with
    | none => .error (.keyError "state")
    | some rs =>
      match row.lat with
      | none => .error (.keyError "lat")
      | some rlat =>
        match row.lng with
        | none => .error (.keyError "lng")
        | some rlng =>
          .ok (station_distances.find? (fun s =>
            decide (s.state = rs ∧ s.lat = rlat ∧ s.lng = rlng)))

/-- Whether a row's lookup succeeds with a match. -/
def matchedP (station_distances : List EligibleStop) (row : StationRow) : Bool :=
  match findMatch station_distances row with
  | .ok (some _) => true
  | _ => false

/-- The entry appended for a matched row. -/
def costEntry (row : StationRow) (s : EligibleStop) : CostEntry :=
  { opisId := row.opisId, truckstopName := row.truckstopName,
    total_cost := round2 (calculate_fuel_cost s.distance row.retailPrice) }

/-- The `for` loop of `calculate_total_cost` over the remaining rows: a
raised `KeyError` aborts the whole call, a matched row appends its cost
entry, an unmatched row appends nothing. -/
def totalCostLoop (station_distances : List EligibleStop) :
    List StationRow → Except PdError (List CostEntry)
  | [] => .ok []
  | row :: rest =>
    match findMatch station_distances row with
    | .error e => .error e
    | .ok none => totalCostLoop station_distances rest
    | .ok (some s) =>
      match totalCostLoop station_distances rest with
      | .error e => .error e
      | .ok tail => .ok (costEntry row s :: tail)

/-- `calculate_total_cost(filtered_fuel_stations, fuel_stations_within_500_miles)`:
for each of the first 5 rows, look up the matching station by state and
coordinates; a matched row contributes its cost entry, an unmatched row
contributes nothing, and a column miss raises `KeyError`. -/
def calculate_total_cost (filtered_fuel_stations : List StationRow)
    (fuel_stations_within_500_miles : List EligibleStop) :
    Except PdError (List CostEntry) :=
  totalCostLoop fuel_stations_within_500_miles (filtered_fuel_stations.take 5)

/-- The state extracted from one reverse-geocode result: walk
`address_components`, stop at the first component whose `types` contain
`administrative_area_level_1`, and take its `short_name`. -/
def findStateComponent : List AddressComponent → Option String
  | [] => none
  | c :: rest =>
    if c.types.contains "administrative_area_level_1" then c.short_name
    else findStateComponent rest

/-- `state` after the reverse-geocode block: `None` when
`reverse_geocode_result` is empty, else the first
`administrative_area_level_1` short name of `result[0]`. -/
def extractState (reverse_geocode_result : List (List AddressComponent)) :
    Option String :=
  match reverse_geocode_result with
  | [] => none
  | comps :: _ => findStateComponent comps

/-- The dictionary appended to `fuel_stations_within_500_miles` for a place
that passed `is_within_500_miles`.  `dist` is the geodesic-miles function
(`geopy.distance.geodesic(...).miles`), passed as a collaborator. -/
def mkStop (gm : GmapsClient) (dist : LatLng → LatLng → ℚ)
    (start_coords : LatLng) (place : Place) : EligibleStop :=
  { lat := place.location.lat
    lng := place.location.lng
    formatted_address := place.vicinity
    state := extractState (gm.reverse_geocode place.location)
    distance := dist start_coords place.location }

/-- The contents of `fuel_stations_within_500_miles` after the proximity
loop: for every step, every nearby place whose geodesic distance from the
route start is `≤ 500` miles contributes one stop. -/
def proximityStops (gm : GmapsClient) (dist : LatLng → LatLng → ℚ)
    (start_coords : LatLng) (route : List Step) : List EligibleStop :=
  route.flatMap (fun step =>
    (gm.places_nearby step.end_location).flatMap (fun place =>
      if dist start_coords place.location ≤ 500 then
        [mkStop gm dist start_coords place]
      else []))

/-- The external calls issued by the proximity loop: one places-nearby call
per step, then one reverse-geocode call per place within range. -/
def proximityCalls (gm : GmapsClient) (dist : LatLng → LatLng → ℚ)
    (start_coords : LatLng) (route : List Step) : List ExtCall :=
  route.flatMap (fun step =>
    ExtCall.places step.end_location ::
      (gm.places_nearby step.end_location).flatMap (fun place =>
        if dist start_coords place.location ≤ 500 then
          [ExtCall.revGeocode place.location]
        else []))

/-- The `route_map` URL of the success payload. -/
def routeMapUrl (start_address finish_address : String) : String :=
  "https://www.google.com/maps/dir/?api=1&origin=" ++ start_address ++
    "&destination=" ++ finish_address

/-- `optimize_route`: the view, as a pure function of the collaborators
(`gm`, `dist`), the module table `FUEL_DATA` and the request.  Returns the
response (`none` models an uncaught Python exception, which happens when
`directions_result[0]['legs']` is empty) together with the external calls
issued, in order. -/
def optimize_route (gm : GmapsClient) (dist : LatLng → LatLng → ℚ)
    (FUEL_DATA : List FuelRow) (request : Request) :
    Option Response × List ExtCall :=
  let start_address := request.start
  let finish_address := request.finish
  if pyFalsy start_address || pyFalsy finish_address then
    (some (Response.clientError "Start and finish locations are required."), [])
  else
    let s := start_address.getD ""
    let f := finish_address.getD ""
    let directions_result := gm.directions s f
    match directions_result with
    | [] => (some (Response.clientError "Failed to fetch route."),
             [ExtCall.directions s f])
    | d₀ :: ds =>
      match d₀.legs with
      | [] => (none, [ExtCall.directions s f])
      | leg :: _ =>
        let route := leg.steps
        let start_coords := leg.start_location
        let fuel_stations_within_500_miles := proximityStops gm dist start_coords route
        let filtered_fuel_stations :=
          get_fuel_stations_by_state FUEL_DATA fuel_stations_within_500_miles
        (some (Response.success (routeMapUrl s f) filtered_fuel_stations (d₀ :: ds)),
         ExtCall.directions s f :: proximityCalls gm dist start_coords route)

/-- The module-level mutable state of `views.py` that request handling can
see: the `FUEL_DATA` table loaded at import time. -/
structure ModuleState where
  FUEL_DATA : List FuelRow
deriving Repr, DecidableEq

/-- `get_fuel_stations_by_state` as a state transformer on the module
state: the body only reads `FUEL_DATA` (no assignment occurs), so the
state passes through. -/
def get_fuel_stations_by_state_st (st : ModuleState)
    (stops : List EligibleStop) : List ResultRow × ModuleState :=
  (get_fuel_stations_by_state st.FUEL_DATA stops, st)

/-- `calculate_total_cost` as a state transformer: it never touches
`FUEL_DATA`. -/
def calculate_total_cost_st (st : ModuleState) (rows : List StationRow)
    (stops : List EligibleStop) : Except PdError (List CostEntry) × ModuleState :=
  (calculate_total_cost rows stops, st)

/-- `optimize_route` as a state transformer: every access to `FUEL_DATA`
in its body is a read. -/
def optimize_route_st (gm : GmapsClient) (dist : LatLng → LatLng → ℚ)
    (st : ModuleState) (request : Request) :
    (Option Response × List ExtCall) × ModuleState :=
  (optimize_route gm dist st.FUEL_DATA request, st)

/-! Concrete data for evaluating the embedding on small inputs. -/

/-- A distance collaborator that always answers 0 miles. -/
def dist0 : LatLng → LatLng → ℚ := fun _ _ => 0

/-- A collaborator whose every method answers nothing. -/
def gm0 : GmapsClient :=
  { directions := fun _ _ => []
    places_nearby := fun _ => []
    reverse_geocode := fun _ => [] }

/-- The origin coordinate used in the concrete runs. -/
def llO : LatLng := { lat := 0, lng := 0 }

/-- A leg with no steps starting at the origin. -/
def legW : Leg := { steps := [], start_location := llO }

/-- A directions result with one leg and no steps. -/
def dirW : Direction := { legs := [legW] }

/-- A request with both addresses present and non-empty. -/
def reqW : Request := { start := some "Chicago, IL", finish := some "Denver, CO" }

/-- A collaborator that finds a route but no nearby places, so the
proximity loop yields no eligible stops. -/
def gm2 : GmapsClient :=
  { directions := fun _ _ => [dirW]
    places_nearby := fun _ => []
    reverse_geocode := fun _ => [] }

/-- A two-row fuel table (California and Nevada stations). -/
def fdW : List FuelRow :=
  [{ opisId := 1, truckstopName := "T1", address := "a1", city := "c1",
     state := "CA", retailPrice := 3 },
   { opisId := 2, truckstopName := "T2", address := "a2", city := "c2",
     state := "NV", retailPrice := 2 }]

/-- An eligible stop in California. -/
def stopCA : EligibleStop :=
  { lat := 1, lng := 2, formatted_address := "x", state := some "CA", distance := 100 }

/-- A second Californian stop at other coordinates. -/
def stopCA2 : EligibleStop :=
  { lat := 5, lng := 6, formatted_address := "y", state := some "CA", distance := 200 }

/-- A full-column station row matching `stopCA` on state and coordinates. -/
def rowA : StationRow :=
  { opisId := 1, truckstopName := "T1", retailPrice := 3,
    state := some (some "CA"), lat := some 1, lng := some 2 }

/-- A full-column station row matching no stop. -/
def rowB : StationRow :=
  { opisId := 2, truckstopName := "T2", retailPrice := 2,
    state := some (some "NV"), lat := some 9, lng := some 9 }

/-- An `administrative_area_level_1` component with short name CA. -/
def compCA : AddressComponent :=
  { types := ["administrative_area_level_1"], short_name := some "CA" }

/-- A nearby place for the proximity-loop runs. -/
def placeW : Place := { location := { lat := 3, lng := 4 }, vicinity := "W" }

/-- One route step. -/
def stepV : Step := { end_location := { lat := 2, lng := 2 } }

/-- A collaborator that reports `placeW` near every location and reverse
geocodes everything to California. -/
def gm1 : GmapsClient :=
  { directions := fun _ _ => []
    places_nearby := fun _ => [placeW]
    reverse_geocode := fun _ => [[compCA]] }

end FuelOptimizer

namespace FuelOptimizer

/-! Theorems. -/

/-- Every entry of a loop run that returned normally comes from a row
whose lookup succeeded with a match, and is that row's cost entry. -/
theorem totalCostLoop_mem (station_distances : List EligibleStop) :
    ∀ (l : List StationRow) (entries : List CostEntry),
      totalCostLoop station_distances l = Except.ok entries →
      ∀ e ∈ entries, ∃ row ∈ l, ∃ s,
        findMatch station_distances row = Except.ok (some s) ∧ e = costEntry row s := by
  intro l
  induction l with
  | nil =>
    intro entries hok e he
    obtain rfl : ([] : List CostEntry) = entries := Except.ok.inj hok
    exact absurd he (List.not_mem_nil e)
  | cons row rest ih =>
    intro entries hok e he
    unfold totalCostLoop at hok
    cases hfm : findMatch station_distances row with
    | error err => rw [hfm] at hok; exact absurd hok (by simp)
    | ok o =>
      rw [hfm] at hok
      cases o with
      | none =>
        obtain ⟨r, hr, s, hs, hes⟩ := ih entries hok e he
        exact ⟨r, List.mem_cons_of_mem row hr, s, hs, hes⟩
      | some s =>
        cases htail : totalCostLoop station_distances rest with
        | error err => rw [htail] at hok; exact absurd hok (by simp)
        | ok tail =>
          rw [htail] at hok
          obtain rfl : costEntry row s :: tail = entries := Except.ok.inj hok
          rcases List.mem_cons.mp he with rfl | hmem
          · exact ⟨row, List.mem_cons_self row rest, s, hfm, rfl⟩
          · obtain ⟨r, hr, s', hs', hes'⟩ := ih tail htail e hmem
            exact ⟨r, List.mem_cons_of_mem row hr, s', hs', hes'⟩

/-- On full-column rows and a non-empty stop collection, the loop never
raises: it returns one entry per matched row. -/
theorem totalCostLoop_ok (station_distances : List EligibleStop)
    (hne : station_distances ≠ []) :
    ∀ l : List StationRow,
      (∀ row ∈ l, row.state.isSome ∧ row.lat.isSome ∧ row.lng.isSome) →
      ∃ entries, totalCostLoop station_distances l = Except.ok entries ∧
        entries.length = l.countP (matchedP station_distances) := by
  intro l
  induction l with
  | nil => intro _; exact ⟨[], rfl, by simp⟩
  | cons row rest ih =>
    intro hcols
    obtain ⟨hs, hlat, hlng⟩ := hcols row (List.mem_cons_self row rest)
    obtain ⟨rs, hrs⟩ := Option.isSome_iff_exists.mp hs
    obtain ⟨rlat, hrlat⟩ := Option.isSome_iff_exists.mp hlat
    obtain ⟨rlng, hrlng⟩ := Option.isSome_iff_exists.mp hlng
    have hfm : findMatch station_distances row =
        Except.ok (station_distances.find? (fun s =>
          decide (s.state = rs ∧ s.lat = rlat ∧ s.lng = rlng))) := by
      unfold findMatch
      rw [if_neg (by simpa [List.isEmpty_iff] using hne), hrs, hrlat, hrlng]
    obtain ⟨tail, htail, hlen⟩ := ih (fun r hr => hcols r (List.mem_cons_of_mem row hr))
    cases hfind : station_distances.find? (fun s =>
        decide (s.state = rs ∧ s.lat = rlat ∧ s.lng = rlng)) with
    | none =>
      refine ⟨tail, ?_, ?_⟩
      · unfold totalCostLoop
        rw [hfm, hfind]
        exact htail
      · rw [hlen, List.countP_cons]
        have hmp : matchedP station_distances row = false := by
          unfold matchedP
          rw [hfm, hfind]
        rw [hmp]
        simp
    | some s =>
      refine ⟨costEntry row s :: tail, ?_, ?_⟩
      · unfold totalCostLoop
        rw [hfm, hfind, htail]
      · rw [List.length_cons, hlen, List.countP_cons]
        have hmp : matchedP station_distances row = true := by
          unfold matchedP
          rw [hfm, hfind]
        rw [hmp]
        simp

/-- `get_fuel_stations_by_state` with its let-bindings unfolded. -/
theorem get_fuel_stations_by_state_eq (fd : List FuelRow) (stops : List EligibleStop) :
    get_fuel_stations_by_state fd stops =
      (((filteredByStates fd stops).insertionSort priceLe).map projRow).take 5 := rfl

/-- C1: for a non-empty eligible-stop list, the selection policy returns
min 5 n rows (n the number of fuel-table rows in the visited states),
each drawn from those rows, in non-decreasing Retail Price, and every
selected price is at most the price of every non-selected row in the
visited states. -/
theorem C1_selection_policy (FUEL_DATA : List FuelRow) (stops : List EligibleStop)
    (hne : stops ≠ []) :
    (get_fuel_stations_by_state FUEL_DATA stops).length =
      min 5 (filteredByStates FUEL_DATA stops).length ∧
    List.Sorted (fun a b : ResultRow => a.retailPrice ≤ b.retailPrice)
      (get_fuel_stations_by_state FUEL_DATA stops) ∧
    List.Subperm (get_fuel_stations_by_state FUEL_DATA stops)
      ((filteredByStates FUEL_DATA stops).map projRow) ∧
    ∀ e ∈ get_fuel_stations_by_state FUEL_DATA stops,
      ∀ r ∈ filteredByStates FUEL_DATA stops,
        projRow r ∉ get_fuel_stations_by_state FUEL_DATA stops →
          e.retailPrice ≤ r.retailPrice := by
  have hres : get_fuel_stations_by_state FUEL_DATA stops =
      (((filteredByStates FUEL_DATA stops).insertionSort priceLe).map projRow).take 5 :=
    get_fuel_stations_by_state_eq FUEL_DATA stops
  have hperm : ((filteredByStates FUEL_DATA stops).insertionSort priceLe).Perm
      (filteredByStates FUEL_DATA stops) :=
    List.perm_insertionSort priceLe _
  have hsort : List.Sorted priceLe
      ((filteredByStates FUEL_DATA stops).insertionSort priceLe) :=
    List.sorted_insertionSort priceLe _
  refine ⟨?_, ?_, ?_, ?_⟩
  · rw [hres, List.length_take, List.length_map, hperm.length_eq]
  · rw [hres]
    have hmap : List.Sorted (fun a b : ResultRow => a.retailPrice ≤ b.retailPrice)
        (((filteredByStates FUEL_DATA stops).insertionSort priceLe).map projRow) :=
      List.Pairwise.map projRow (fun _ _ h => h) hsort
    exact List.Pairwise.sublist (List.take_sublist 5 _) hmap
  · rw [hres]
    exact (List.take_sublist 5 _).subperm.trans (hperm.map projRow).subperm
  · intro e he r hr hnot
    rw [hres, ← List.map_take] at he hnot
    obtain ⟨a, ha, hae⟩ := List.mem_map.mp he
    have hrS : r ∈ (filteredByStates FUEL_DATA stops).insertionSort priceLe :=
      hperm.mem_iff.mpr hr
    have hsplit : r ∈ ((filteredByStates FUEL_DATA stops).insertionSort priceLe).take 5 ++
        ((filteredByStates FUEL_DATA stops).insertionSort priceLe).drop 5 := by
      rw [List.take_append_drop]
      exact hrS
    rcases List.mem_append.mp hsplit with h5 | h5
    · exact absurd (List.mem_map_of_mem projRow h5) hnot
    · have hle : priceLe a r := hsort.rel_of_mem_take_of_mem_drop ha h5
      rw [← hae]
      exact hle

/-- Witness for C1 on the two-row table with one Californian stop. -/
theorem C1_selection_policy_witness :
    (get_fuel_stations_by_state fdW [stopCA]).length =
      min 5 (filteredByStates fdW [stopCA]).length ∧
    List.Sorted (fun a b : ResultRow => a.retailPrice ≤ b.retailPrice)
      (get_fuel_stations_by_state fdW [stopCA]) ∧
    List.Subperm (get_fuel_stations_by_state fdW [stopCA])
      ((filteredByStates fdW [stopCA]).map projRow) ∧
    ∀ e ∈ get_fuel_stations_by_state fdW [stopCA],
      ∀ r ∈ filteredByStates fdW [stopCA],
        projRow r ∉ get_fuel_stations_by_state fdW [stopCA] →
          e.retailPrice ≤ r.retailPrice :=
  C1_selection_policy fdW [stopCA] (List.cons_ne_nil _ _)

/-- C3: a request body missing `start` or `finish` is answered with the
400 payload `{"error": "Start and finish locations are required."}` and no
external call is issued. -/
theorem C3_missing_field_rejected (gm : GmapsClient) (dist : LatLng → LatLng → ℚ)
    (FUEL_DATA : List FuelRow) (request : Request)
    (h : request.start = none ∨ request.finish = none) :
    optimize_route gm dist FUEL_DATA request =
      (some (Response.clientError "Start and finish locations are required."), []) ∧
    (Response.clientError "Start and finish locations are required.").status = 400 := by
  refine ⟨?_, rfl⟩
  unfold optimize_route
  rcases h with h | h <;> simp [h, pyFalsy]

/-- Witness for C3 at a concrete request lacking `finish`. -/
theorem C3_missing_field_rejected_witness :
    optimize_route gm0 dist0 [] { start := some "Chicago, IL", finish := none } =
      (some (Response.clientError "Start and finish locations are required."), []) ∧
    (Response.clientError "Start and finish locations are required.").status = 400 :=
  C3_missing_field_rejected gm0 dist0 [] _ (Or.inr rfl)

/-- C9: an empty-string `start` or `finish` is rejected exactly like a
missing one (the guard tests Python falsiness, not presence). -/
theorem C9_empty_string_rejected (gm : GmapsClient) (dist : LatLng → LatLng → ℚ)
    (FUEL_DATA : List FuelRow) (request : Request)
    (h : request.start = some "" ∨ request.finish = some "") :
    optimize_route gm dist FUEL_DATA request =
      (some (Response.clientError "Start and finish locations are required."), []) ∧
    (Response.clientError "Start and finish locations are required.").status = 400 := by
  refine ⟨?_, rfl⟩
  have he : pyFalsy (some "") = true := rfl
  unfold optimize_route
  rcases h with h | h <;> rw [h] <;> simp [he]

/-- Witness for C9 at a concrete request with an empty `start`. -/
theorem C9_empty_string_rejected_witness :
    optimize_route gm0 dist0 [] { start := some "", finish := some "Denver, CO" } =
      (some (Response.clientError "Start and finish locations are required."), []) ∧
    (Response.clientError "Start and finish locations are required.").status = 400 :=
  C9_empty_string_rejected gm0 dist0 [] _ (Or.inl rfl)

/-- C8: request handling only reads the module table `FUEL_DATA`: each
operation, as a transformer of the module state, returns that state
unchanged. -/
theorem C8_fuel_data_unchanged (gm : GmapsClient) (dist : LatLng → LatLng → ℚ)
    (st : ModuleState) (request : Request) (stops : List EligibleStop)
    (rows : List StationRow) :
    (optimize_route_st gm dist st request).2 = st ∧
    (get_fuel_stations_by_state_st st stops).2 = st ∧
    (calculate_total_cost_st st rows stops).2 = st :=
  ⟨rfl, rfl, rfl⟩

/-- C5 fails as stated: at fuel price 0, increasing the distance from 1 to
2 does not increase the cost. -/
theorem C5_counterexample :
    (1 : ℚ) < 2 ∧ ¬ calculate_fuel_cost 1 0 < calculate_fuel_cost 2 0 := by
  constructor
  · norm_num
  · simp [calculate_fuel_cost]

/-- C5 amended: strict monotonicity in the distance holds for positive
prices, strict monotonicity in the price holds for positive distances, and
the cost of distance 0 is 0 at every price. -/
theorem C5_monotone_amended (d d₁ d₂ p p₁ p₂ : ℚ) :
    (0 < p → d₁ < d₂ → calculate_fuel_cost d₁ p < calculate_fuel_cost d₂ p) ∧
    (0 < d → p₁ < p₂ → calculate_fuel_cost d p₁ < calculate_fuel_cost d p₂) ∧
    calculate_fuel_cost 0 p = 0 := by
  unfold calculate_fuel_cost VEHICLE_MPG
  refine ⟨fun hp h => ?_, fun hd h => ?_, by simp⟩
  · have h10 : (0 : ℚ) < 10 := by norm_num
    exact mul_lt_mul_of_pos_right ((div_lt_div_iff_of_pos_right h10).mpr h) hp
  · have hd10 : (0 : ℚ) < d / 10 := by positivity
    exact mul_lt_mul_of_pos_left h hd10

/-- Witness for the amended C5 at distances 1 < 2, price 3; prices 1 < 2,
distance 5; and price 7 at distance 0. -/
theorem C5_monotone_amended_witness :
    calculate_fuel_cost 1 3 < calculate_fuel_cost 2 3 ∧
    calculate_fuel_cost 5 1 < calculate_fuel_cost 5 2 ∧
    calculate_fuel_cost 0 7 = 0 :=
  ⟨(C5_monotone_amended 5 1 2 3 1 2).1 (by norm_num) (by norm_num),
   (C5_monotone_amended 5 1 2 3 1 2).2.1 (by norm_num) (by norm_num),
   (C5_monotone_amended 5 1 2 7 1 2).2.2⟩

/-- C4: `calculate_fuel_cost` is `(distance / 10) * fuel_price`, 10 being
the fixed `VEHICLE_MPG`, and every per-station entry that
`calculate_total_cost` emits carries that value, at the matched stop's
distance and the row's price, rounded to 2 decimal places. -/
theorem C4_cost_formula (distance fuel_price : ℚ)
    (rows : List StationRow) (stops : List EligibleStop) :
    VEHICLE_MPG = 10 ∧
    calculate_fuel_cost distance fuel_price = distance / 10 * fuel_price ∧
    ∀ entries, calculate_total_cost rows stops = Except.ok entries →
      ∀ e ∈ entries, ∃ row ∈ rows.take 5, ∃ s,
        findMatch stops row = Except.ok (some s) ∧
        e.total_cost = round2 (s.distance / 10 * row.retailPrice) := by
  refine ⟨rfl, rfl, ?_⟩
  intro entries hok e he
  obtain ⟨row, hrow, s, hfind, rfl⟩ := totalCostLoop_mem stops (rows.take 5) entries hok e he
  exact ⟨row, hrow, s, hfind, rfl⟩

/-- `rowA` matches `stopCA`; `rowB` matches nothing. -/
theorem findMatch_rowA : findMatch [stopCA] rowA = Except.ok (some stopCA) := by
  simp [findMatch, List.find?, stopCA, rowA]

/-- `rowB` agrees with `stopCA` on no field used by the lookup. -/
theorem findMatch_rowB : findMatch [stopCA] rowB = Except.ok none := by
  simp [findMatch, List.find?, stopCA, rowB]

/-- Evaluating `calculate_total_cost` on the two-row example: only `rowA`
contributes, and the call returns normally. -/
theorem calc_total_cost_eval :
    calculate_total_cost [rowA, rowB] [stopCA] = Except.ok [costEntry rowA stopCA] := by
  unfold calculate_total_cost
  simp [totalCostLoop, findMatch_rowA, findMatch_rowB]

/-- The one produced entry: 100 miles at price 3 per gallon cost 30. -/
theorem costEntry_rowA_eval :
    costEntry rowA stopCA =
      { opisId := 1, truckstopName := "T1", total_cost := 30 } := by
  norm_num [costEntry, calculate_fuel_cost, VEHICLE_MPG, round2, pyRoundInt,
    rowA, stopCA]

/-- Witness for C4: a 100-mile stop at price 3 costs 30. -/
theorem C4_cost_formula_witness :
    calculate_fuel_cost 100 3 = 100 / 10 * 3 ∧
    calculate_total_cost [rowA, rowB] [stopCA] = Except.ok [costEntry rowA stopCA] ∧
    ∀ e ∈ [costEntry rowA stopCA], ∃ row ∈ ([rowA, rowB] : List StationRow).take 5, ∃ s,
      findMatch [stopCA] row = Except.ok (some s) ∧
      e.total_cost = round2 (s.distance / 10 * row.retailPrice) :=
  ⟨(C4_cost_formula 100 3 [rowA, rowB] [stopCA]).2.1, calc_total_cost_eval,
   (C4_cost_formula 100 3 [rowA, rowB] [stopCA]).2.2 _ calc_total_cost_eval⟩

/-- C7 fails as stated: on the rows the pipeline actually passes — the
three-column output of `get_fuel_stations_by_state`, which matches no
eligible stop on state/lat/lng since it lacks those columns — the lookup
raises `KeyError: 'state'` instead of returning normally with the station
omitted; an empty eligible-stop collection raises it too, even on
full-column rows. -/
theorem C7_counterexample :
    calculate_total_cost
        ((get_fuel_stations_by_state fdW [stopCA]).map toStationRow) [stopCA] =
      Except.error (PdError.keyError "state") ∧
    calculate_total_cost [rowA] [] = Except.error (PdError.keyError "state") := by
  constructor
  · have hsel : get_fuel_stations_by_state fdW [stopCA] =
        [{ opisId := 1, truckstopName := "T1", retailPrice := 3 }] := by
      simp [get_fuel_stations_by_state, fdW, stopCA, projRow]
    rw [hsel]
    simp [calculate_total_cost, totalCostLoop, findMatch, toStationRow]
  · simp [calculate_total_cost, totalCostLoop, findMatch, rowA]

/-- C7 amended: provided every passed row carries the `state`/`lat`/`lng`
columns and the eligible-stop collection is non-empty, the call returns
normally, a row whose lookup finds no match is silently omitted, and the
entries are exactly one per matched row of the first 5; on the pipeline's
actual three-column rows, or an empty stop collection, it instead raises
`KeyError`. -/
theorem C7_unmatched_rows_omitted_amended (rows : List StationRow)
    (stops : List EligibleStop)
    (hcols : ∀ row ∈ rows.take 5, row.state.isSome ∧ row.lat.isSome ∧ row.lng.isSome)
    (hne : stops ≠ []) :
    ∃ entries, calculate_total_cost rows stops = Except.ok entries ∧
      (∀ e ∈ entries, ∃ row ∈ rows.take 5, ∃ s,
          findMatch stops row = Except.ok (some s) ∧ e = costEntry row s) ∧
      entries.length = (rows.take 5).countP (matchedP stops) := by
  obtain ⟨entries, hok, hlen⟩ := totalCostLoop_ok stops hne (rows.take 5) hcols
  exact ⟨entries, hok, totalCostLoop_mem stops (rows.take 5) entries hok, hlen⟩

/-- Witness for the amended C7: `rowB` matches no stop and is omitted;
only `rowA` produces an entry and the call returns normally. -/
theorem C7_unmatched_rows_omitted_amended_witness :
    ∃ entries, calculate_total_cost [rowA, rowB] [stopCA] = Except.ok entries ∧
      (∀ e ∈ entries, ∃ row ∈ [rowA, rowB].take 5, ∃ s,
          findMatch [stopCA] row = Except.ok (some s) ∧ e = costEntry row s) ∧
      entries.length = ([rowA, rowB].take 5).countP (matchedP [stopCA]) :=
  C7_unmatched_rows_omitted_amended [rowA, rowB] [stopCA] (by decide) (by decide)

/-- C10: the selection policy reads its input only through the set of
distinct states: two eligible-stop lists whose state values have the same
membership produce the same result. -/
theorem C10_depends_only_on_states (FUEL_DATA : List FuelRow)
    (l₁ l₂ : List EligibleStop)
    (h : ∀ s : Option String, s ∈ statesOf l₁ ↔ s ∈ statesOf l₂) :
    get_fuel_stations_by_state FUEL_DATA l₁ = get_fuel_stations_by_state FUEL_DATA l₂ := by
  have hf : filteredByStates FUEL_DATA l₁ = filteredByStates FUEL_DATA l₂ := by
    unfold filteredByStates
    apply List.filter_congr
    intro r _
    exact decide_eq_decide.mpr (h (some r.state))
  rw [get_fuel_stations_by_state_eq, get_fuel_stations_by_state_eq, hf]

/-- Witness for C10: duplicating a Californian stop (at other coordinates
and distance) leaves the selection unchanged. -/
theorem C10_depends_only_on_states_witness :
    get_fuel_stations_by_state fdW [stopCA, stopCA2] =
      get_fuel_stations_by_state fdW [stopCA] :=
  C10_depends_only_on_states fdW [stopCA, stopCA2] [stopCA] (by
    intro s
    simp [statesOf, stopCA, stopCA2])

/-- C6: every stop the proximity loop appends was within 500 miles of the
route start, and the distance stored with it is exactly the collaborator's
distance from the start to the stop's coordinates. -/
theorem C6_stops_within_range (gm : GmapsClient) (dist : LatLng → LatLng → ℚ)
    (start_coords : LatLng) (route : List Step) (stop : EligibleStop)
    (h : stop ∈ proximityStops gm dist start_coords route) :
    stop.distance ≤ 500 ∧
    stop.distance = dist start_coords { lat := stop.lat, lng := stop.lng } := by
  unfold proximityStops at h
  simp only [List.mem_flatMap] at h
  obtain ⟨step, -, place, -, hmem⟩ := h
  by_cases hd : dist start_coords place.location ≤ 500
  · rw [if_pos hd] at hmem
    rw [List.mem_singleton] at hmem
    subst hmem
    exact ⟨hd, rfl⟩
  · rw [if_neg hd] at hmem
    exact absurd hmem (List.not_mem_nil _)

/-- An empty eligible-stop list selects nothing. -/
theorem get_fuel_stations_by_state_nil (fd : List FuelRow) :
    get_fuel_stations_by_state fd [] = [] := by
  rw [get_fuel_stations_by_state_eq]
  simp [filteredByStates, statesOf]

/-- C2 fails as stated: on a request whose route is found but whose
proximity filtering yields no eligible stop, the endpoint answers 200 with
an empty `optimal_stations` list — not 400 with "No fuel stations found
within the route." (no branch of the view produces that message). -/
theorem C2_counterexample :
    proximityStops gm2 dist0 legW.start_location legW.steps = [] ∧
    (optimize_route gm2 dist0 fdW reqW).1 =
      some (Response.success (routeMapUrl "Chicago, IL" "Denver, CO") [] [dirW]) ∧
    (Response.success (routeMapUrl "Chicago, IL" "Denver, CO") [] [dirW]).status = 200 ∧
    (optimize_route gm2 dist0 fdW reqW).1 ≠
      some (Response.clientError "No fuel stations found within the route.") := by
  have h1 : "Chicago, IL".isEmpty = false := by decide
  have h2 : "Denver, CO".isEmpty = false := by decide
  refine ⟨rfl, ?_, rfl, ?_⟩ <;>
    simp [optimize_route, reqW, gm2, dirW, legW, pyFalsy, proximityStops,
      get_fuel_stations_by_state_nil, h1, h2]

/-- C2 amended: when the route fetch succeeds and proximity filtering
yields no eligible stop, the endpoint responds 200 with an empty
`optimal_stations` list (it does not reply 400). -/
theorem C2_empty_stops_success_amended (gm : GmapsClient)
    (dist : LatLng → LatLng → ℚ) (FUEL_DATA : List FuelRow) (s f : String)
    (hs : s ≠ "") (hf : f ≠ "") (d₀ : Direction) (ds : List Direction)
    (leg : Leg) (legs : List Leg) (hdir : gm.directions s f = d₀ :: ds)
    (hlegs : d₀.legs = leg :: legs)
    (hempty : proximityStops gm dist leg.start_location leg.steps = []) :
    (optimize_route gm dist FUEL_DATA { start := some s, finish := some f }).1 =
      some (Response.success (routeMapUrl s f) [] (d₀ :: ds)) ∧
    (Response.success (routeMapUrl s f) [] (d₀ :: ds)).status = 200 := by
  refine ⟨?_, rfl⟩
  have hs' : pyFalsy (some s) = false := by
    simp only [pyFalsy]
    exact Bool.eq_false_iff.mpr (fun h => hs ((String.isEmpty_iff s).mp h))
  have hf' : pyFalsy (some f) = false := by
    simp only [pyFalsy]
    exact Bool.eq_false_iff.mpr (fun h => hf ((String.isEmpty_iff f).mp h))
  unfold optimize_route
  simp [hs', hf', hdir, hlegs, hempty, get_fuel_stations_by_state_nil]

/-- Witness for the amended C2 at the concrete empty-places run. -/
theorem C2_empty_stops_success_amended_witness :
    (optimize_route gm2 dist0 fdW { start := some "Chicago, IL", finish := some "Denver, CO" }).1 =
      some (Response.success (routeMapUrl "Chicago, IL" "Denver, CO") [] [dirW]) ∧
    (Response.success (routeMapUrl "Chicago, IL" "Denver, CO") [] [dirW]).status = 200 :=
  C2_empty_stops_success_amended gm2 dist0 fdW "Chicago, IL" "Denver, CO"
    (by decide) (by decide) dirW [] legW [] rfl rfl rfl

/-- Witness for C6 on a one-step route with one nearby place. -/
theorem C6_stops_within_range_witness :
    mkStop gm1 dist0 llO placeW ∈ proximityStops gm1 dist0 llO [stepV] ∧
    (mkStop gm1 dist0 llO placeW).distance ≤ 500 ∧
    (mkStop gm1 dist0 llO placeW).distance =
      dist0 llO { lat := (mkStop gm1 dist0 llO placeW).lat,
                  lng := (mkStop gm1 dist0 llO placeW).lng } :=
  ⟨by decide, C6_stops_within_range gm1 dist0 llO [stepV] _ (by decide)⟩

end FuelOptimizer
